import Mathlib

/-!
Verification of the graffiti forwarder and etcd coordination client
(skydive repository, files `graffiti/forwarder/forwarder.go` and
`graffiti/etcd/client/client.go`) against their natural-language
specification.

The Go code is shallowly embedded: pure computations become Lean
functions, and the effectful handlers of the `Forwarder` are modelled as
functions from an explicit state to a new state together with a trace of
the side effects they perform (lock operations, snapshot reads, message
sends, listener registration, process exit).  Machine integers are
modelled as `Int` with the explicit 64-bit range bounds where the Go
code checks them (`strconv.ParseInt` with bitSize 64).
-/

namespace Skydive

/-! ## Data model

`graph.Node`, `graph.Edge`, `graph.PartiallyUpdatedOp` and the message
types live outside the two source files; their shapes are modelled from
the spec (§3 DATA MODEL): a graph element carries an immutable ID, an
`UpdatedAt` timestamp and a monotonic `Revision`, plus opaque metadata.
-/

/-- Operation kind of a field-level partial update. -/
inductive OpKind
  | addOp
  | delOp
deriving DecidableEq, Repr

/-- Modelled from the spec: one field-level operation of an incremental
mutation of a graph element (§3 `PartiallyUpdatedOp`). -/
structure PartiallyUpdatedOp where
  kind : OpKind
  key : String
  value : String
deriving DecidableEq, Repr

/-- Modelled from the spec: a graph node (§3 `GraphElement`): immutable
ID, `UpdatedAt` timestamp, monotonic `Revision`, opaque metadata. -/
structure Node where
  id : String
  updatedAt : Int
  revision : Int
  metadata : List (String × String)
deriving DecidableEq, Repr

/-- Modelled from the spec: a graph edge (§3 `GraphElement`) with its two
endpoint node IDs. -/
structure Edge where
  id : String
  parent : String
  child : String
  updatedAt : Int
  revision : Int
  metadata : List (String × String)
deriving DecidableEq, Repr

/-- The full ordered collection of graph elements, as returned by
`graph.Elements()` and carried by a `SyncMsg`. -/
structure Elements where
  nodes : List Node
  edges : List Edge
deriving DecidableEq, Repr

/-- The local graph owned by the agent, together with whether the
Forwarder is currently registered as its event listener
(`AddEventListener` / `RemoveEventListener`). -/
structure Graph where
  nodes : List Node
  edges : List Edge
  listenerRegistered : Bool
deriving DecidableEq, Repr

/-- `graph.Elements()`: the snapshot of all elements of the graph. -/
def Graph.elements (g : Graph) : Elements :=
  { nodes := g.nodes, edges := g.edges }

/-- A handle to the channel toward one remote peer (`ws.Speaker`),
exposing `GetAddrPort`. -/
structure Speaker where
  addr : String
  port : Nat
deriving DecidableEq, Repr

/-! ## Messages (`graffiti/messages`, modelled from their use in
`forwarder.go` and the spec's event-to-message table, §4.2) -/

/-- The message type tags used by the forwarder. -/
inductive MsgType
  | syncMsgType
  | nodeAddedMsgType
  | nodeDeletedMsgType
  | nodePartiallyUpdatedMsgType
  | edgeAddedMsgType
  | edgeDeletedMsgType
  | edgePartiallyUpdatedMsgType
deriving DecidableEq, Repr

/-- `messages.PartiallyUpdatedMsg`: the payload of a partial-update
message, built in `forwarder.go` from exactly the fields
ID, UpdatedAt, Revision and Ops of the element. -/
structure PartiallyUpdatedMsg where
  id : String
  updatedAt : Int
  revision : Int
  ops : List PartiallyUpdatedOp
deriving DecidableEq, Repr

/-- The payload of a struct message sent by the forwarder. -/
inductive MsgPayload
  | sync (els : Elements)
  | nodePayload (n : Node)
  | edgePayload (e : Edge)
  | partiallyUpdated (m : PartiallyUpdatedMsg)
deriving DecidableEq, Repr

/-- `messages.NewStructMessage`: a typed message envelope. -/
structure StructMessage where
  ty : MsgType
  payload : MsgPayload
deriving DecidableEq, Repr

/-- `messages.NewStructMessage ty payload`. -/
def newStructMessage (ty : MsgType) (payload : MsgPayload) : StructMessage :=
  { ty := ty, payload := payload }

/-! ## Forwarder (`graffiti/forwarder/forwarder.go`)

The `Forwarder` struct holds the master election (whose current master
is the only piece of its state the embedded code observes) and the
graph.  Each Go method is embedded as a function from the forwarder
state to a new state plus a trace of emitted effects.
-/

/-- The Forwarder: master election binding and the graph
(`forwarder.go`, struct `Forwarder`). -/
structure Forwarder where
  graph : Graph
  master : Option Speaker
deriving DecidableEq, Repr

/-- The observable side effects of the Forwarder's handlers. -/
inductive FEvent
  | logInfo
  | logWarning
  | rlock
  | runlock
  | snapshot (els : Elements)
  | sendToMaster (m : StructMessage)
  | addListener
  | removeListener
  | exitProcess (code : Nat)
deriving DecidableEq, Repr

/-- The `SyncMsg` struct message built by `triggerResync`:
`NewStructMessage(SyncMsgType, SyncMsg{Elements: graph.Elements()})`. -/
def syncMessage (g : Graph) : StructMessage :=
  newStructMessage .syncMsgType (.sync g.elements)

/-- `Forwarder.triggerResync`: log, capture the snapshot of all graph
elements, send the `SyncMsg` to the master.  It reads the graph and
changes nothing, so it is embedded as the forwarder state unchanged
together with the message it sends. -/
def Forwarder.triggerResync (t : Forwarder) : Forwarder × StructMessage :=
  (t, syncMessage t.graph)

/-- The effect trace of `triggerResync`: the info log, the snapshot read
`t.graph.Elements()`, and the send of the `SyncMsg`. -/
def triggerResyncEvents (g : Graph) : List FEvent :=
  [.logInfo, .snapshot g.elements, .sendToMaster (syncMessage g)]

/-- `Forwarder.OnNewMaster`: on a null speaker, warn, remove the
forwarder as the graph's event listener and call `os.Exit(1)`; on a
non-null speaker `c`, log the new master, take the graph's read lock,
run `triggerResync`, add the forwarder as the graph's event listener,
and release the lock.  The master binding reflects the election
mechanism's current master (set to `c` when the notification fires). -/
def Forwarder.onNewMaster (t : Forwarder) (c : Option Speaker) :
    Forwarder × List FEvent :=
  match c with
  | none =>
      ({ t with graph := { t.graph with listenerRegistered := false } },
       [.logWarning, .removeListener, .exitProcess 1])
  | some p =>
      ({ graph := { t.graph with listenerRegistered := true }, master := some p },
       [.logInfo, .rlock] ++ triggerResyncEvents t.graph ++ [.addListener, .runlock])

/-- `Forwarder.OnNodeAdded`: send one `NodeAddedMsgType` message with
the full node; the forwarder state is untouched. -/
def Forwarder.onNodeAdded (t : Forwarder) (n : Node) :
    Forwarder × List StructMessage :=
  (t, [newStructMessage .nodeAddedMsgType (.nodePayload n)])

/-- `Forwarder.OnNodeDeleted`: send one `NodeDeletedMsgType` message
with the full node; the forwarder state is untouched. -/
def Forwarder.onNodeDeleted (t : Forwarder) (n : Node) :
    Forwarder × List StructMessage :=
  (t, [newStructMessage .nodeDeletedMsgType (.nodePayload n)])

/-- `Forwarder.OnNodeUpdated`: send one `NodePartiallyUpdatedMsgType`
message whose payload is `{ID, UpdatedAt, Revision, Ops}` of the node;
the forwarder state is untouched. -/
def Forwarder.onNodeUpdated (t : Forwarder) (n : Node)
    (ops : List PartiallyUpdatedOp) : Forwarder × List StructMessage :=
  (t, [newStructMessage .nodePartiallyUpdatedMsgType
        (.partiallyUpdated
          { id := n.id, updatedAt := n.updatedAt, revision := n.revision,
            ops := ops })])

/-- `Forwarder.OnEdgeAdded`: send one `EdgeAddedMsgType` message with
the full edge; the forwarder state is untouched. -/
def Forwarder.onEdgeAdded (t : Forwarder) (e : Edge) :
    Forwarder × List StructMessage :=
  (t, [newStructMessage .edgeAddedMsgType (.edgePayload e)])

/-- `Forwarder.OnEdgeDeleted`: send one `EdgeDeletedMsgType` message
with the full edge; the forwarder state is untouched. -/
def Forwarder.onEdgeDeleted (t : Forwarder) (e : Edge) :
    Forwarder × List StructMessage :=
  (t, [newStructMessage .edgeDeletedMsgType (.edgePayload e)])

/-- `Forwarder.OnEdgeUpdated`: send one `EdgePartiallyUpdatedMsgType`
message whose payload is `{ID, UpdatedAt, Revision, Ops}` of the edge;
the forwarder state is untouched. -/
def Forwarder.onEdgeUpdated (t : Forwarder) (e : Edge)
    (ops : List PartiallyUpdatedOp) : Forwarder × List StructMessage :=
  (t, [newStructMessage .edgePartiallyUpdatedMsgType
        (.partiallyUpdated
          { id := e.id, updatedAt := e.updatedAt, revision := e.revision,
            ops := ops })])

/-- `Forwarder.GetMaster`: the current master handle. -/
def Forwarder.getMaster (t : Forwarder) : Option Speaker :=
  t.master

/-! ## Coordination client (`graffiti/etcd/client/client.go`)

The etcd store itself is external; a store is modelled as a function
from keys to either an error or the stored string value (`Get`), and
the outcome of each `Set` attempt of the bootstrap loop as a
success/failure oracle indexed by attempt number.
-/

/-- The kind of error of the Go `strconv.ParseInt`: a syntax failure or
an out-of-64-bit-range value. -/
inductive ParseErr
  | invalid
  | outOfRange
deriving DecidableEq, Repr

/-- The largest value of a Go `int64`. -/
def int64Max : Int := 2 ^ 63 - 1

/-- The smallest value of a Go `int64`. -/
def int64Min : Int := -(2 ^ 63)

/-- The numeric value of a list of decimal digit characters. -/
def digitsToNat (ds : List Char) : Nat :=
  ds.foldl (fun acc c => acc * 10 + (c.toNat - '0'.toNat)) 0

/-- `strconv.ParseInt(s, 10, 64)`: an optional leading sign followed by
at least one decimal digit; a syntax failure returns `(0, invalid)`; a
value outside the `int64` range returns the clamped bound together with
`outOfRange`; otherwise the value with no error. -/
def parseInt64 (s : String) : Int × Option ParseErr :=
  match s.data with
  | [] => (0, some .invalid)
  | c :: rest =>
      let ds := if c = '-' ∨ c = '+' then rest else c :: rest
      if ds.isEmpty then (0, some .invalid)
      else if ds.all Char.isDigit then
        let v : Int := if c = '-' then -(digitsToNat ds : Int) else (digitsToNat ds : Int)
        if v < int64Min then (int64Min, some .outOfRange)
        else if int64Max < v then (int64Max, some .outOfRange)
        else (v, none)
      else (0, some .invalid)

/-- The spec-side notion of a valid decimal integer string for the
`int64` accessor: an optional sign, at least one decimal digit, and a
value representable as a 64-bit signed integer; `some` of that value
when valid, `none` otherwise. -/
def decimalValue (s : String) : Option Int :=
  match s.data with
  | [] => none
  | c :: rest =>
      let ds := if c = '-' ∨ c = '+' then rest else c :: rest
      if ds.isEmpty then none
      else if ds.all Char.isDigit then
        let v : Int := if c = '-' then -(digitsToNat ds : Int) else (digitsToNat ds : Int)
        if int64Min ≤ v ∧ v ≤ int64Max then some v else none
      else none

/-- An error returned by `Client.GetInt64`: either the store's own
error, passed through, or a parse error of the stored value. -/
inductive GetErr
  | storeErr (e : String)
  | parseErr (e : ParseErr)
deriving DecidableEq, Repr

/-- A coordination store as seen through `KeysAPI.Get`: each key yields
either an error or the stored string value. -/
def Store := String → Except String String

/-- `Client.GetInt64`: call `Get` on the store; on a store error return
`(0, err)`; otherwise return `strconv.ParseInt(value, 10, 64)`. -/
def getInt64 (store : Store) (key : String) : Int × Option GetErr :=
  match store key with
  | .error e => (0, some (.storeErr e))
  | .ok v => ((parseInt64 v).1, (parseInt64 v).2.map .parseErr)

/-- One observable step of `Client.Start`'s bootstrap loop. -/
inductive StartEvent
  | writeAttempt (k : Nat) (ok : Bool)
  | sleepOneSecond
deriving DecidableEq, Repr

/-- `Client.Start`: repeatedly attempt the bootstrap write of the
current time to `/client:<id>/start-time`; on failure log, sleep one
second and retry; on the first success return.  `outcome k` is whether
the store accepts attempt `k`; the loop is embedded with fuel, returning
the attempt index at which it returned (`none` when the fuel ran out
before a success) and the trace of attempts and sleeps. -/
def startRun (outcome : Nat → Bool) : Nat → Nat → Option Nat × List StartEvent
  | 0, _ => (none, [])
  | fuel + 1, k =>
      if outcome k then (some k, [.writeAttempt k true])
      else
        match startRun outcome fuel (k + 1) with
        | (r, tr) => (r, .writeAttempt k false :: .sleepOneSecond :: tr)

/-- The trace of a bootstrap loop that fails `n` times starting at
attempt `k`, sleeping a fixed one second after each failure, then
succeeds. -/
def retryTrace : Nat → Nat → List StartEvent
  | k, 0 => [.writeAttempt k true]
  | k, n + 1 => .writeAttempt k false :: .sleepOneSecond :: retryTrace (k + 1) n

/-! ## Master election (interface in `client.go`; the elector
implementation is not part of the two source files) -/

/-- Modelled from the spec: a lease over an ElectionKey (§3 `Lease`): an
ownership token held by one process with a TTL expiry instant.  The
elector implementation (`NewMasterElector`) is missing from the source;
the store-enforced exclusivity is taken from the spec's words: a lease
is "owned exclusively by at most one process cluster-wide at any
instant (enforced by the coordination store)". -/
structure Lease where
  holder : String
  expiry : Nat
deriving DecidableEq, Repr

/-- Modelled from the spec: the coordination store's election state at
one instant — for each ElectionKey, at most one valid lease (§3). -/
structure ElectionStore where
  lease : String → Option Lease

/-- Modelled from the spec: `MasterElection.IsMaster` for process `pid`
contending on `key` at instant `now`: the process holds the key's lease
and the lease has not expired (§3 Role: "Exactly one process
cluster-wide observes Role=Master for a given ElectionKey while its
lease is valid; all others observe Slave"). -/
def isMaster (s : ElectionStore) (key pid : String) (now : Nat) : Bool :=
  match s.lease key with
  | none => false
  | some l => decide (pid = l.holder ∧ now < l.expiry)

/-! ## Concrete instances used for evaluation -/

/-- A sample node. -/
def nodeA : Node := { id := "n1", updatedAt := 5, revision := 1, metadata := [] }

/-- A graph on which the Forwarder is currently registered as event
listener (the Synced state). -/
def syncedGraph : Graph :=
  { nodes := [nodeA], edges := [], listenerRegistered := true }

/-- A sample peer speaker. -/
def peerP : Speaker := { addr := "192.168.0.10", port := 8082 }

/-- A Forwarder in the Synced state: listener registered, bound to some
previous master. -/
def syncedForwarder : Forwarder :=
  { graph := syncedGraph, master := some { addr := "192.168.0.9", port := 8082 } }

/-- A store whose `Get` always fails. -/
def failingStore : Store := fun _ => .error "client: etcd cluster is unavailable"

/-- A store holding the value "42" under every key. -/
def numericStore : Store := fun _ => .ok "42"

/-- An election store at one instant: one valid lease, held by
"agent-1" until instant 10. -/
def demoStore : ElectionStore :=
  { lease := fun k =>
      if k = "/elections/topology" then some { holder := "agent-1", expiry := 10 }
      else none }

/-- A bootstrap-write oracle: the store rejects attempts 0 and 1 and
accepts from attempt 2 on. -/
def bootOutcome : Nat → Bool := fun k => decide (2 ≤ k)

/-! ## Theorems -/

/-- C1: For every call of `OnNewMaster` with a non-null speaker, the
resync runs as one sequence under a single acquisition of the graph's
lock: the trace splits as `pre ++ rlock :: mid ++ runlock :: post`
where the lock is acquired exactly once and released exactly once, and
`mid` — the events performed with the lock held — is exactly the
snapshot capture, the `SyncMsg` send, and then the listener
registration, so that no graph mutation can complete in between. -/
theorem onNewMaster_resync_single_lock (t : Forwarder) (p : Speaker) :
    ∃ pre mid post : List FEvent,
      (t.onNewMaster (some p)).2 = pre ++ FEvent.rlock :: (mid ++ FEvent.runlock :: post)
      ∧ FEvent.rlock ∉ pre ∧ FEvent.rlock ∉ mid ∧ FEvent.rlock ∉ post
      ∧ FEvent.runlock ∉ pre ∧ FEvent.runlock ∉ mid ∧ FEvent.runlock ∉ post
      ∧ mid = [FEvent.logInfo, FEvent.snapshot t.graph.elements,
               FEvent.sendToMaster (syncMessage t.graph), FEvent.addListener] := by
  refine ⟨[FEvent.logInfo],
    [FEvent.logInfo, FEvent.snapshot t.graph.elements,
     FEvent.sendToMaster (syncMessage t.graph), FEvent.addListener],
    [], ?_, ?_, ?_, ?_, ?_, ?_, ?_, rfl⟩ <;>
  simp [Forwarder.onNewMaster, triggerResyncEvents]

/-- C3: For every call of `OnNewMaster` with a null speaker, the
Forwarder removes itself as the graph's event listener, and the host
process is then terminated with non-zero exit status 1; the exit is the
last event of the trace, so the path is never retried. -/
theorem onNewMaster_null_fatal (t : Forwarder) :
    (t.onNewMaster none).1.graph.listenerRegistered = false
    ∧ (t.onNewMaster none).2 =
        [FEvent.logWarning, FEvent.removeListener, FEvent.exitProcess 1]
    ∧ (∃ code, (t.onNewMaster none).2.getLast? = some (FEvent.exitProcess code)
        ∧ code ≠ 0) :=
  ⟨rfl, rfl, 1, rfl, one_ne_zero⟩

/-- C4: Every graph mutation event delivered to the Forwarder sends
exactly one message with the type and payload of the mapping table:
added and deleted events carry the full element, partially-updated
events carry exactly {ID, UpdatedAt, Revision, ops}. -/
theorem forwarder_event_message_mapping (t : Forwarder) (n : Node) (e : Edge)
    (ops : List PartiallyUpdatedOp) :
    (t.onNodeAdded n).2 = [newStructMessage .nodeAddedMsgType (.nodePayload n)]
    ∧ (t.onNodeDeleted n).2 = [newStructMessage .nodeDeletedMsgType (.nodePayload n)]
    ∧ (t.onNodeUpdated n ops).2 =
        [newStructMessage .nodePartiallyUpdatedMsgType
          (.partiallyUpdated
            { id := n.id, updatedAt := n.updatedAt, revision := n.revision, ops := ops })]
    ∧ (t.onEdgeAdded e).2 = [newStructMessage .edgeAddedMsgType (.edgePayload e)]
    ∧ (t.onEdgeDeleted e).2 = [newStructMessage .edgeDeletedMsgType (.edgePayload e)]
    ∧ (t.onEdgeUpdated e ops).2 =
        [newStructMessage .edgePartiallyUpdatedMsgType
          (.partiallyUpdated
            { id := e.id, updatedAt := e.updatedAt, revision := e.revision, ops := ops })] :=
  ⟨rfl, rfl, rfl, rfl, rfl, rfl⟩

/-- C5: Every graph-event callback is side-effect-only toward the
outbound channel: it sends exactly one message and leaves the
Forwarder's state — the graph and the master binding — unchanged. -/
theorem forwarder_callbacks_frame (t : Forwarder) (n : Node) (e : Edge)
    (ops : List PartiallyUpdatedOp) :
    (t.onNodeAdded n).1 = t ∧ (t.onNodeAdded n).2.length = 1
    ∧ (t.onNodeDeleted n).1 = t ∧ (t.onNodeDeleted n).2.length = 1
    ∧ (t.onNodeUpdated n ops).1 = t ∧ (t.onNodeUpdated n ops).2.length = 1
    ∧ (t.onEdgeAdded e).1 = t ∧ (t.onEdgeAdded e).2.length = 1
    ∧ (t.onEdgeDeleted e).1 = t ∧ (t.onEdgeDeleted e).2.length = 1
    ∧ (t.onEdgeUpdated e ops).1 = t ∧ (t.onEdgeUpdated e ops).2.length = 1 :=
  ⟨rfl, rfl, rfl, rfl, rfl, rfl, rfl, rfl, rfl, rfl, rfl, rfl⟩

/-- C9: Resync is idempotent: running `triggerResync` a second time over
the state left by the first run produces a structurally identical
`SyncMsg`, and the first run leaves the graph unchanged — the snapshot
is a deterministic function of the graph's elements. -/
theorem triggerResync_idempotent (t : Forwarder) :
    (t.triggerResync.1.triggerResync).2 = t.triggerResync.2
    ∧ t.triggerResync.1.graph = t.graph
    ∧ t.triggerResync.2 = newStructMessage .syncMsgType (.sync t.graph.elements) :=
  ⟨rfl, rfl, rfl⟩

/-- C10: Whenever the store's `Get` fails, `GetInt64` returns the value
0 together with the store's error (no parse error is ever produced on
this path). -/
theorem getInt64_store_error (store : Store) (key e : String)
    (h : store key = .error e) :
    getInt64 store key = (0, some (.storeErr e)) := by
  simp [getInt64, h]

/-- Witness for C10 at a concrete failing store. -/
theorem getInt64_store_error_witness :
    failingStore "/agent-1/watcher" = .error "client: etcd cluster is unavailable"
    ∧ getInt64 failingStore "/agent-1/watcher" =
        (0, some (.storeErr "client: etcd cluster is unavailable")) :=
  ⟨rfl, getInt64_store_error failingStore "/agent-1/watcher" _ rfl⟩

/-- C6: At most one process observes `IsMaster() = true` for a given
ElectionKey at a given instant: the coordination store holds at most
one valid lease per key. -/
theorem single_master_invariant (s : ElectionStore) (key p q : String) (now : Nat)
    (hp : isMaster s key p now = true) (hq : isMaster s key q now = true) :
    p = q := by
  unfold isMaster at hp hq
  cases h : s.lease key with
  | none => rw [h] at hp; cases hp
  | some l =>
      rw [h] at hp hq
      simp only [decide_eq_true_eq] at hp hq
      exact hp.1.trans hq.1.symm

/-- Witness for C6: in the demo store, "agent-1" is master at instant 3,
and any two observers of `IsMaster = true` coincide. -/
theorem single_master_invariant_witness :
    isMaster demoStore "/elections/topology" "agent-1" 3 = true
    ∧ ("agent-1" : String) = "agent-1" :=
  ⟨by decide,
   single_master_invariant demoStore "/elections/topology" "agent-1" "agent-1" 3
     (by decide) (by decide)⟩

/-- C2 counterexample: with the Forwarder in the Synced state (listener
registered) and a non-null peer, the trace of `OnNewMaster` contains no
`RemoveEventListener` at all — so the Forwarder does not stop listening
to graph events before resyncing, contrary to the claim. -/
theorem onNewMaster_synced_no_unregister_cex :
    syncedForwarder.graph.listenerRegistered = true
    ∧ FEvent.removeListener ∉ (syncedForwarder.onNewMaster (some peerP)).2 := by
  constructor
  · rfl
  · simp [Forwarder.onNewMaster, triggerResyncEvents]

/-- C2 (amended): on a non-null peer P while Synced, the Forwarder does
not unregister its graph event listener; instead, under a single
acquisition of the graph's read lock (which blocks mutations, hence
event delivery), it sends one `SyncMsg` and then (re-)adds itself as
the graph's event listener, ending Synced with current master = P. -/
theorem onNewMaster_synced_resync (t : Forwarder) (p : Speaker)
    (_h : t.graph.listenerRegistered = true) :
    FEvent.removeListener ∉ (t.onNewMaster (some p)).2
    ∧ (t.onNewMaster (some p)).2 =
        [FEvent.logInfo, FEvent.rlock, FEvent.logInfo,
         FEvent.snapshot t.graph.elements,
         FEvent.sendToMaster (syncMessage t.graph),
         FEvent.addListener, FEvent.runlock]
    ∧ (t.onNewMaster (some p)).1.graph.listenerRegistered = true
    ∧ (t.onNewMaster (some p)).1.master = some p := by
  refine ⟨?_, rfl, rfl, rfl⟩
  simp [Forwarder.onNewMaster, triggerResyncEvents]

/-- Witness for C2's amended claim at the concrete Synced forwarder. -/
theorem onNewMaster_synced_resync_witness :
    syncedForwarder.graph.listenerRegistered = true
    ∧ (FEvent.removeListener ∉ (syncedForwarder.onNewMaster (some peerP)).2
       ∧ (syncedForwarder.onNewMaster (some peerP)).2 =
           [FEvent.logInfo, FEvent.rlock, FEvent.logInfo,
            FEvent.snapshot syncedForwarder.graph.elements,
            FEvent.sendToMaster (syncMessage syncedForwarder.graph),
            FEvent.addListener, FEvent.runlock]
       ∧ (syncedForwarder.onNewMaster (some peerP)).1.graph.listenerRegistered = true
       ∧ (syncedForwarder.onNewMaster (some peerP)).1.master = some peerP) :=
  ⟨rfl, onNewMaster_synced_resync syncedForwarder peerP rfl⟩

/-- The implemented parser and the spec-side notion of a valid decimal
`int64` string agree: `decimalValue` succeeds exactly when `parseInt64`
reports no error, and then returns the parsed value. -/
theorem parseInt64_decimalValue (v : String) :
    decimalValue v = if (parseInt64 v).2 = none then some (parseInt64 v).1 else none := by
  unfold parseInt64 decimalValue
  cases hd : v.data with
  | nil => simp
  | cons c rest =>
      simp only []
      split_ifs <;> simp_all <;> omega

/-- C7: when the store's `Get` succeeds with value `v`, `GetInt64`
returns the represented integer with no error exactly when `v` is a
valid decimal `int64` string, and otherwise returns a parse error to
the caller (one store access, no retry is modelled or performed). -/
theorem getInt64_parse_result (store : Store) (key v : String)
    (hv : store key = .ok v) :
    (∀ i, decimalValue v = some i → getInt64 store key = (i, none))
    ∧ (decimalValue v = none →
        ∃ pe, (getInt64 store key).2 = some (GetErr.parseErr pe)) := by
  have h := parseInt64_decimalValue v
  constructor
  · intro i hi
    rw [hi] at h
    by_cases h2 : (parseInt64 v).2 = none
    · rw [if_pos h2] at h
      have h1 : (parseInt64 v).1 = i := Option.some.inj h.symm
      simp [getInt64, hv, h1, h2]
    · rw [if_neg h2] at h
      cases h
  · intro hn
    rw [hn] at h
    by_cases h2 : (parseInt64 v).2 = none
    · rw [if_pos h2] at h
      cases h
    · obtain ⟨pe, hpe⟩ := Option.ne_none_iff_exists'.mp h2
      exact ⟨pe, by simp [getInt64, hv, hpe]⟩

/-- Witness for C7 at a store holding the numeric value "42". -/
theorem getInt64_parse_result_witness :
    numericStore "/agent-1/ttl" = .ok "42"
    ∧ ((∀ i, decimalValue "42" = some i →
          getInt64 numericStore "/agent-1/ttl" = (i, none))
       ∧ (decimalValue "42" = none →
          ∃ pe, (getInt64 numericStore "/agent-1/ttl").2 = some (GetErr.parseErr pe))) :=
  ⟨rfl, getInt64_parse_result numericStore "/agent-1/ttl" "42" rfl⟩

/-- The bootstrap loop of `Client.Start`, started at attempt `k`:
given the first success `n` attempts later and enough fuel, it returns
at exactly that attempt, with the trace of `n` rejected writes each
followed by a fixed one-second sleep and then the accepted write. -/
theorem startRun_eq (outcome : Nat → Bool) :
    ∀ fuel k n, outcome (k + n) = true → (∀ i, i < n → outcome (k + i) = false) →
      n < fuel →
      startRun outcome fuel k = (some (k + n), retryTrace k n) := by
  intro fuel
  induction fuel with
  | zero => intro k n _ _ hfuel; omega
  | succ fuel ih =>
      intro k n hn hlt hfuel
      by_cases hk : outcome k = true
      · have hn0 : n = 0 := by
          by_contra h0
          have hc := hlt 0 (by omega)
          rw [Nat.add_zero] at hc
          rw [hk] at hc
          cases hc
        subst hn0
        simp [startRun, hk, retryTrace]
      · have hk' : outcome k = false := by
          cases hb : outcome k with
          | true => exact absurd hb hk
          | false => rfl
        have hn0 : n ≠ 0 := by
          intro h0
          subst h0
          rw [Nat.add_zero] at hn
          exact hk hn
        obtain ⟨m, rfl⟩ : ∃ m, n = m + 1 := ⟨n - 1, by omega⟩
        have ihm := ih (k + 1) m (by rw [show k + 1 + m = k + (m + 1) by omega]; exact hn)
          (by intro i hi; rw [show k + 1 + i = k + (i + 1) by omega]; exact hlt (i + 1) (by omega))
          (by omega)
        have harr : k + 1 + m = k + (m + 1) := by omega
        simp only [startRun, hk', ihm, retryTrace, Bool.false_eq_true, if_false, harr]

/-- C8: `Client.Start` blocks, retrying the bootstrap write with a
fixed one-second sleep after each rejection, for as long as the store
rejects it; it returns no error (the loop's only exit is a success) and
returns exactly at the first accepted write. -/
theorem client_start_until_first_success (outcome : Nat → Bool) (n fuel : Nat)
    (hn : outcome n = true) (hfirst : ∀ i, i < n → outcome i = false)
    (hfuel : n < fuel) :
    startRun outcome fuel 0 = (some n, retryTrace 0 n) := by
  have h := startRun_eq outcome fuel 0 n (by rw [Nat.zero_add]; exact hn)
    (by intro i hi; rw [Nat.zero_add]; exact hfirst i hi) hfuel
  rw [Nat.zero_add] at h
  exact h

/-- Witness for C8: with a store that rejects attempts 0 and 1 and
accepts attempt 2, `Start` returns at attempt 2 after two one-second
sleeps. -/
theorem client_start_until_first_success_witness :
    bootOutcome 2 = true
    ∧ (∀ i, i < 2 → bootOutcome i = false)
    ∧ 2 < 5
    ∧ startRun bootOutcome 5 0 = (some 2, retryTrace 0 2) :=
  ⟨by decide, by decide, by decide,
   client_start_until_first_success bootOutcome 2 5 (by decide) (by decide) (by decide)⟩

end Skydive
